import Mathlib

/-!
Verification of the WeChatAticleCoverPro single-page app (src/index.tsx).

The app holds an overlay state (text, color, font, x/y percentages, drag
flag) plus app-level state (reference image, generated image, error
message). The verifiable logic is:

* `handleImageUpload` — rejects files above 4 MiB (src/index.tsx:69-83);
* `generateCover` — calls the generation collaborator and converts every
  failure into a single error message (src/index.tsx:93-175);
* `handleMouseMove` — drag repositioning with clamping to [0,100]
  (src/index.tsx:183-191);
* `downloadImage` — crop geometry for the three export kinds
  (`full`, `cover`, `thumb`; the spec calls `thumb` "icon"), text
  re-projection and font sizing (src/index.tsx:207-287).

Numeric values are modelled over ℚ (JavaScript numbers, with the decimal
literals 0.15 and 0.08 read exactly).
-/

/-- The three export kinds of `downloadImage` (src/index.tsx:207):
`'full' | 'cover' | 'thumb'`. The spec calls `thumb` "icon". -/
inductive ExportKind
  | full
  | cover
  | thumb
deriving DecidableEq

/-- Crop geometry computed by `downloadImage` (src/index.tsx:219-251):
target canvas size and the source rectangle passed to `drawImage`. -/
structure CropGeometry where
  targetW : ℚ
  targetH : ℚ
  sx : ℚ
  sy : ℚ
  sw : ℚ
  sh : ℚ
deriving DecidableEq

/-- The crop-geometry branch of `downloadImage` (src/index.tsx:223-251). -/
def cropPlan (kind : ExportKind) (sourceW sourceH : ℚ) : CropGeometry :=
  match kind with
  | ExportKind.full =>
      { targetW := sourceW, targetH := sourceH
        sx := 0, sy := 0, sw := sourceW, sh := sourceH }
  | ExportKind.cover =>
      let targetW : ℚ := 900
      let targetH : ℚ := 383
      let scale := sourceW / targetW
      let cropHeight := targetH * scale
      { targetW := targetW, targetH := targetH
        sx := 0, sy := (sourceH - cropHeight) / 2
        sw := sourceW, sh := cropHeight }
  | ExportKind.thumb =>
      let side := min sourceW sourceH
      { targetW := 500, targetH := 500
        sx := (sourceW - side) / 2, sy := (sourceH - side) / 2
        sw := side, sh := side }

/-- Re-projection of the overlay anchor into the export canvas
(src/index.tsx:261-265): percentage position on the source image,
shifted by the crop origin and rescaled to the target. -/
def reprojectText (g : CropGeometry) (sourceW sourceH x y : ℚ) : ℚ × ℚ :=
  let pX := x / 100 * sourceW
  let pY := y / 100 * sourceH
  ((pX - g.sx) * (g.targetW / g.sw), (pY - g.sy) * (g.targetH / g.sh))

/-- Font size of the drawn overlay (src/index.tsx:267): the nested
ternary `type === 'cover' ? targetH * 0.15 : (type === 'thumb' ?
targetH * 0.15 : targetH * 0.08)`. -/
def fontSize (kind : ExportKind) (targetH : ℚ) : ℚ :=
  match kind with
  | ExportKind.cover => targetH * 0.15
  | ExportKind.thumb => targetH * 0.15
  | ExportKind.full => targetH * 0.08

/-- JavaScript `String.prototype.trim`, modelled over the character
list: drop whitespace from both ends. Used for the truthiness tests
`overlay.text.trim()` (src/index.tsx:260) and `prompt.trim()`
(src/index.tsx:94). -/
def strTrim (s : String) : String :=
  String.mk
    (((s.data.dropWhile Char.isWhitespace).reverse.dropWhile
        Char.isWhitespace).reverse)

/-- Overlay state (src/index.tsx:33-40). -/
structure OverlayState where
  text : String
  color : String
  font : String
  x : ℚ
  y : ℚ
  isDragging : Bool
deriving DecidableEq

/-- Outcome of one `downloadImage` run: the crop geometry used, and
whether text was drawn — if so at which canvas position and font size
(src/index.tsx:216-280). -/
structure ExportResult where
  geometry : CropGeometry
  textDrawn : Option (ℚ × ℚ × ℚ)
deriving DecidableEq

/-- The deterministic core of `downloadImage` (src/index.tsx:216-280):
compute the crop geometry, then draw the overlay text only when the
overlay is shown and its text is non-blank
(`if (showOverlay && overlay.text.trim())`, src/index.tsx:260). -/
def downloadImage (kind : ExportKind) (sourceW sourceH : ℚ)
    (showOverlay : Bool) (overlay : OverlayState) : ExportResult :=
  let g := cropPlan kind sourceW sourceH
  let textDrawn :=
    if showOverlay = true ∧ strTrim overlay.text ≠ "" then
      let p := reprojectText g sourceW sourceH overlay.x overlay.y
      some (p.1, p.2, fontSize kind g.targetH)
    else none
  { geometry := g, textDrawn := textDrawn }

/-- The drag handler `handleMouseMove` (src/index.tsx:183-191): a no-op
unless a drag is in progress and the container ref is live; otherwise
position as percentage of the bounding box, clamped to [0,100] by
`Math.max(0, Math.min(100, v))`. -/
def handleMouseMove (hasContainer : Bool)
    (clientX clientY boxLeft boxTop boxWidth boxHeight : ℚ)
    (prev : OverlayState) : OverlayState :=
  if prev.isDragging = false ∨ hasContainer = false then prev
  else
    let x := (clientX - boxLeft) / boxWidth * 100
    let y := (clientY - boxTop) / boxHeight * 100
    { prev with x := max 0 (min 100 x), y := max 0 (min 100 y) }

/-- C1: for every positive source size, the `cover` export fits width to
a fixed 900×383 target: scale = sourceW/900, sh = cropHeight =
383·scale, sx = 0, sw = sourceW, sy = (sourceH − cropHeight)/2, with
no clamping — sy is negative whenever sourceH < cropHeight. -/
theorem cover_crop_geometry (sourceW sourceH : ℚ)
    (hW : 0 < sourceW) (hH : 0 < sourceH) :
    (cropPlan ExportKind.cover sourceW sourceH).targetW = 900 ∧
    (cropPlan ExportKind.cover sourceW sourceH).targetH = 383 ∧
    (cropPlan ExportKind.cover sourceW sourceH).sx = 0 ∧
    (cropPlan ExportKind.cover sourceW sourceH).sw = sourceW ∧
    (cropPlan ExportKind.cover sourceW sourceH).sh = 383 * (sourceW / 900) ∧
    (cropPlan ExportKind.cover sourceW sourceH).sy
      = (sourceH - 383 * (sourceW / 900)) / 2 ∧
    (sourceH < 383 * (sourceW / 900) →
      (cropPlan ExportKind.cover sourceW sourceH).sy < 0) := by
  refine ⟨rfl, rfl, rfl, rfl, rfl, rfl, ?_⟩
  intro hlt
  show (sourceH - 383 * (sourceW / 900)) / 2 < 0
  linarith

/-- C1 witness: the scenario sourceW = 1600, sourceH = 900 gives
cropHeight = 6128/9 ≈ 681 and sy = 986/9 ≈ 109.5. -/
theorem cover_crop_geometry_witness :
    (cropPlan ExportKind.cover 1600 900).sh = 6128 / 9 ∧
    (cropPlan ExportKind.cover 1600 900).sy = 986 / 9 ∧
    |(cropPlan ExportKind.cover 1600 900).sh - 681| ≤ 1 / 5 ∧
    |(cropPlan ExportKind.cover 1600 900).sy - 109.5| ≤ 1 / 10 := by
  have h := cover_crop_geometry 1600 900 (by norm_num) (by norm_num)
  obtain ⟨-, -, -, -, hsh, hsy, -⟩ := h
  rw [hsh, hsy]
  norm_num [abs_le]

/-- C2: for every positive source size, the `thumb` (icon) export crops
a square of side min(sourceW, sourceH) to a 500×500 target, centered in
both axes: sx + sw/2 = sourceW/2 and sy + sh/2 = sourceH/2. -/
theorem icon_crop_centered (sourceW sourceH : ℚ)
    (hW : 0 < sourceW) (hH : 0 < sourceH) :
    (cropPlan ExportKind.thumb sourceW sourceH).targetW = 500 ∧
    (cropPlan ExportKind.thumb sourceW sourceH).targetH = 500 ∧
    (cropPlan ExportKind.thumb sourceW sourceH).sw = min sourceW sourceH ∧
    (cropPlan ExportKind.thumb sourceW sourceH).sh = min sourceW sourceH ∧
    (cropPlan ExportKind.thumb sourceW sourceH).sx
        + (cropPlan ExportKind.thumb sourceW sourceH).sw / 2 = sourceW / 2 ∧
    (cropPlan ExportKind.thumb sourceW sourceH).sy
        + (cropPlan ExportKind.thumb sourceW sourceH).sh / 2 = sourceH / 2 := by
  refine ⟨rfl, rfl, rfl, rfl, ?_, ?_⟩ <;>
    simp only [cropPlan] <;> ring

/-- C2 witness: the centering identities evaluated at a concrete
1200×800 source. -/
theorem icon_crop_centered_witness :
    (cropPlan ExportKind.thumb 1200 800).sx
        + (cropPlan ExportKind.thumb 1200 800).sw / 2 = 1200 / 2 ∧
    (cropPlan ExportKind.thumb 1200 800).sy
        + (cropPlan ExportKind.thumb 1200 800).sh / 2 = 800 / 2 := by
  have h := icon_crop_centered 1200 800 (by norm_num) (by norm_num)
  exact ⟨h.2.2.2.2.1, h.2.2.2.2.2⟩

/-- C3: the `full` export uses the identity geometry
(0, 0, sourceW, sourceH) → (sourceW, sourceH), and under it the
re-projected text position is the plain percentage-of-size position. -/
theorem full_export_roundtrip (sourceW sourceH x y : ℚ)
    (hW : 0 < sourceW) (hH : 0 < sourceH)
    (hx0 : 0 ≤ x) (hx1 : x ≤ 100) (hy0 : 0 ≤ y) (hy1 : y ≤ 100) :
    cropPlan ExportKind.full sourceW sourceH
      = { targetW := sourceW, targetH := sourceH
          sx := 0, sy := 0, sw := sourceW, sh := sourceH } ∧
    reprojectText (cropPlan ExportKind.full sourceW sourceH)
        sourceW sourceH x y
      = (x / 100 * sourceW, y / 100 * sourceH) := by
  refine ⟨rfl, ?_⟩
  simp only [cropPlan, reprojectText, sub_zero]
  rw [div_self (ne_of_gt hW), div_self (ne_of_gt hH)]
  simp

/-- C3 witness: the round-trip identity at sourceW = 1600,
sourceH = 900, x = 30, y = 70. -/
theorem full_export_roundtrip_witness :
    reprojectText (cropPlan ExportKind.full 1600 900) 1600 900 30 70
      = (30 / 100 * 1600, 70 / 100 * 900) :=
  (full_export_roundtrip 1600 900 30 70 (by norm_num) (by norm_num)
    (by norm_num) (by norm_num) (by norm_num) (by norm_num)).2

/-- C4: for a 1200×800 source, the `thumb` (icon) crop is the square of
side 800 at sx = 200, sy = 0, and the overlay anchored at (50, 50)
re-projects to (250, 250), the exact center of the 500×500 output. -/
theorem icon_scenario_center :
    (cropPlan ExportKind.thumb 1200 800).sw = 800 ∧
    (cropPlan ExportKind.thumb 1200 800).sh = 800 ∧
    (cropPlan ExportKind.thumb 1200 800).sx = 200 ∧
    (cropPlan ExportKind.thumb 1200 800).sy = 0 ∧
    reprojectText (cropPlan ExportKind.thumb 1200 800) 1200 800 50 50
      = (250, 250) := by
  refine ⟨?_, ?_, ?_, ?_, ?_⟩ <;> norm_num [cropPlan, reprojectText]

/-- C10: for every positive source size, the `thumb` (icon) crop
rectangle lies entirely within the source image. -/
theorem icon_crop_in_bounds (sourceW sourceH : ℚ)
    (hW : 0 < sourceW) (hH : 0 < sourceH) :
    0 ≤ (cropPlan ExportKind.thumb sourceW sourceH).sx ∧
    0 ≤ (cropPlan ExportKind.thumb sourceW sourceH).sy ∧
    (cropPlan ExportKind.thumb sourceW sourceH).sx
        + (cropPlan ExportKind.thumb sourceW sourceH).sw ≤ sourceW ∧
    (cropPlan ExportKind.thumb sourceW sourceH).sy
        + (cropPlan ExportKind.thumb sourceW sourceH).sh ≤ sourceH := by
  have h1 : min sourceW sourceH ≤ sourceW := min_le_left _ _
  have h2 : min sourceW sourceH ≤ sourceH := min_le_right _ _
  refine ⟨?_, ?_, ?_, ?_⟩ <;> simp only [cropPlan] <;> linarith

/-- C10 witness: the icon crop bounds at a concrete 1920×1080 source. -/
theorem icon_crop_in_bounds_witness :
    0 ≤ (cropPlan ExportKind.thumb 1920 1080).sx ∧
    0 ≤ (cropPlan ExportKind.thumb 1920 1080).sy ∧
    (cropPlan ExportKind.thumb 1920 1080).sx
        + (cropPlan ExportKind.thumb 1920 1080).sw ≤ 1920 ∧
    (cropPlan ExportKind.thumb 1920 1080).sy
        + (cropPlan ExportKind.thumb 1920 1080).sh ≤ 1080 :=
  icon_crop_in_bounds 1920 1080 (by norm_num) (by norm_num)


/-- Tab selection (src/index.tsx:51): `'editor' | 'preview'`. -/
inductive Tab
  | editor
  | preview
deriving DecidableEq

/-- App-level state of the `App` component (src/index.tsx:46-62):
the pieces the handlers read or write. -/
structure AppState where
  refImage : Option String
  generatedImage : Option String
  isGenerating : Bool
  error : Option String
  activeTab : Tab
  showOverlay : Bool
  overlay : OverlayState
deriving DecidableEq

/-- The upload handler `handleImageUpload` (src/index.tsx:69-83) for a
selected file of `fileSize` bytes whose data URL reads as `fileData`:
files above 4·1024·1024 bytes set an error and return early; smaller
files are read and stored as the reference image, clearing the error. -/
def handleImageUpload (fileSize : ℕ) (fileData : String)
    (s : AppState) : AppState :=
  if fileSize > 4 * 1024 * 1024 then
    { s with error := some "Image size too large. Please choose an image under 4MB." }
  else
    { s with refImage := some fileData, error := none }

/-- One part of the generation response (src/index.tsx:149-155): either
inline image data or text. -/
inductive GenPart
  | inlineData (d : String)
  | textPart (t : String)
deriving DecidableEq

/-- The scan of `response.candidates[0].content.parts`
(src/index.tsx:148-155): the first part carrying `inlineData` becomes
the generated image data URL. -/
def findImage : List GenPart → Option String
  | [] => none
  | GenPart.inlineData d :: _ => some ("data:image/png;base64," ++ d)
  | GenPart.textPart _ :: rest => findImage rest

/-- `generateCover` (src/index.tsx:93-175), with the collaborator call
abstracted as `result`: `Except.error msg` when `generateContent`
throws, `Except.ok parts` when it returns a response with the given
parts. Guard clause, try/catch conversion of every failure into one
error message (`err.message || "Failed to generate image."`), the
missing-image throw (src/index.tsx:157-159), tab switch and the
auto-enable of the overlay on success (src/index.tsx:161-166), and the
`finally` reset of the generating flag are all modelled. -/
def generateCover (promptText : String)
    (result : Except String (List GenPart)) (s : AppState) : AppState :=
  if strTrim promptText = "" ∧ s.refImage = none then
    { s with error := some "Please enter a prompt or upload a reference image." }
  else
    let s1 := { s with isGenerating := true, error := none }
    let s2 :=
      match result with
      | Except.error msg =>
          { s1 with error := some (if msg = "" then "Failed to generate image." else msg) }
      | Except.ok parts =>
          match findImage parts with
          | none =>
              { s1 with error := some "The model generated text instead of an image. Please try refining your prompt." }
          | some img =>
              let s3 := { s1 with generatedImage := some img,
                                  activeTab := Tab.editor }
              if s3.showOverlay = false ∧ s3.overlay.text ≠ "" then
                { s3 with showOverlay := true }
              else s3
    { s2 with isGenerating := false }

/-- C5: during a drag over a live container with a positive-size
bounding box, the stored position is the percentage position clamped to
[0,100] in both axes, so it is never below 0 or above 100 even when the
raw pointer lies outside the box. -/
theorem drag_position_clamped
    (clientX clientY boxLeft boxTop boxWidth boxHeight : ℚ)
    (prev : OverlayState) (hd : prev.isDragging = true)
    (hw : 0 < boxWidth) (hh : 0 < boxHeight) :
    (handleMouseMove true clientX clientY boxLeft boxTop boxWidth
        boxHeight prev).x
      = max 0 (min 100 ((clientX - boxLeft) / boxWidth * 100)) ∧
    (handleMouseMove true clientX clientY boxLeft boxTop boxWidth
        boxHeight prev).y
      = max 0 (min 100 ((clientY - boxTop) / boxHeight * 100)) ∧
    0 ≤ (handleMouseMove true clientX clientY boxLeft boxTop boxWidth
        boxHeight prev).x ∧
    (handleMouseMove true clientX clientY boxLeft boxTop boxWidth
        boxHeight prev).x ≤ 100 ∧
    0 ≤ (handleMouseMove true clientX clientY boxLeft boxTop boxWidth
        boxHeight prev).y ∧
    (handleMouseMove true clientX clientY boxLeft boxTop boxWidth
        boxHeight prev).y ≤ 100 := by
  have hcond : ¬(prev.isDragging = false ∨ (true : Bool) = false) := by
    simp [hd]
  simp only [handleMouseMove, if_neg hcond]
  refine ⟨?_, ?_, ?_, ?_, ?_, ?_⟩ <;>
    first
      | trivial
      | exact le_max_left _ _
      | exact max_le (by norm_num) (min_le_left _ _)

/-- C5 witness: a pointer far outside a 10×10 box at origin, with the
overlay mid-drag, lands clamped at (100, 0). -/
theorem drag_position_clamped_witness :
    (handleMouseMove true 25 (-3) 0 0 10 10
        { text := "t", color := "#fff", font := "sans", x := 50, y := 50,
          isDragging := true }).x = 100 ∧
    (handleMouseMove true 25 (-3) 0 0 10 10
        { text := "t", color := "#fff", font := "sans", x := 50, y := 50,
          isDragging := true }).y = 0 := by
  have h := drag_position_clamped 25 (-3) 0 0 10 10
    { text := "t", color := "#fff", font := "sans", x := 50, y := 50,
      isDragging := true } rfl (by norm_num) (by norm_num)
  obtain ⟨hx, hy, -⟩ := h
  rw [hx, hy]
  norm_num

/-- C6: with the overlay disabled or its text empty, no text is drawn
on the export, whatever the export kind — in particular when
`overlay.text` is non-empty while the overlay is disabled. -/
theorem overlay_suppressed (kind : ExportKind) (sourceW sourceH : ℚ)
    (showOverlay : Bool) (overlay : OverlayState)
    (h : showOverlay = false ∨ overlay.text = "") :
    (downloadImage kind sourceW sourceH showOverlay overlay).textDrawn
      = none := by
  rcases h with h | h
  · simp [downloadImage, h]
  · simp only [downloadImage, h]
    rw [if_neg]
    rintro ⟨-, habs⟩
    exact habs rfl

/-- C6 witness: non-empty text with the overlay disabled draws nothing
on a cover export. -/
theorem overlay_suppressed_witness :
    (downloadImage ExportKind.cover 1600 900 false
        { text := "Hello", color := "#fff", font := "sans", x := 50,
          y := 50, isDragging := false }).textDrawn = none :=
  overlay_suppressed ExportKind.cover 1600 900 false
    { text := "Hello", color := "#fff", font := "sans", x := 50, y := 50,
      isDragging := false } (Or.inl rfl)

/-- C7: with the overlay enabled and non-blank text, the text is drawn
at font size targetHeight · 0.15 for the `cover` and `thumb` (icon)
kinds and targetHeight · 0.08 for the `full` kind. -/
theorem export_font_size (kind : ExportKind) (sourceW sourceH : ℚ)
    (overlay : OverlayState) (h : strTrim overlay.text ≠ "") :
    ∃ tx ty : ℚ,
      (downloadImage kind sourceW sourceH true overlay).textDrawn
        = some (tx, ty,
            (cropPlan kind sourceW sourceH).targetH *
              (if kind = ExportKind.full then 0.08 else 0.15)) := by
  refine ⟨(reprojectText (cropPlan kind sourceW sourceH) sourceW sourceH
    overlay.x overlay.y).1,
    (reprojectText (cropPlan kind sourceW sourceH) sourceW sourceH
    overlay.x overlay.y).2, ?_⟩
  cases kind <;> simp [downloadImage, h, fontSize]

/-- C7 witness: a cover export with text draws at font size
383 · 0.15. -/
theorem export_font_size_witness :
    ∃ tx ty : ℚ,
      (downloadImage ExportKind.cover 1600 900 true
          { text := "Hi", color := "#fff", font := "sans", x := 50,
            y := 50, isDragging := false }).textDrawn
        = some (tx, ty,
            (cropPlan ExportKind.cover 1600 900).targetH *
              (if ExportKind.cover = ExportKind.full then 0.08
               else 0.15)) :=
  export_font_size ExportKind.cover 1600 900
    { text := "Hi", color := "#fff", font := "sans", x := 50, y := 50,
      isDragging := false } (by decide)

/-- C8: an upload above 4 MiB sets an error and leaves the reference
image, the generated image and the overlay state unchanged; an upload
of at most 4 MiB is accepted as the new reference image. -/
theorem upload_size_limit (fileSize : ℕ) (fileData : String)
    (s : AppState) :
    (fileSize > 4 * 1024 * 1024 →
      (handleImageUpload fileSize fileData s).error
        = some "Image size too large. Please choose an image under 4MB." ∧
      (handleImageUpload fileSize fileData s).refImage = s.refImage ∧
      (handleImageUpload fileSize fileData s).generatedImage
        = s.generatedImage ∧
      (handleImageUpload fileSize fileData s).overlay = s.overlay ∧
      (handleImageUpload fileSize fileData s).showOverlay
        = s.showOverlay) ∧
    (fileSize ≤ 4 * 1024 * 1024 →
      (handleImageUpload fileSize fileData s).refImage
        = some fileData) := by
  constructor
  · intro hbig
    unfold handleImageUpload
    rw [if_pos hbig]
    exact ⟨rfl, rfl, rfl, rfl, rfl⟩
  · intro hok
    unfold handleImageUpload
    rw [if_neg (Nat.not_lt.mpr hok)]

/-- C8 witness: a 5 MiB file is rejected without touching the state and
a 4 MiB file is accepted, starting from the initial state. -/
theorem upload_size_limit_witness :
    (handleImageUpload (5 * 1024 * 1024) "data"
        { refImage := none, generatedImage := none, isGenerating := false,
          error := none, activeTab := Tab.editor, showOverlay := false,
          overlay := { text := "", color := "#ffffff", font := "sans",
                       x := 50, y := 50, isDragging := false } }).refImage
      = none ∧
    (handleImageUpload (4 * 1024 * 1024) "data"
        { refImage := none, generatedImage := none, isGenerating := false,
          error := none, activeTab := Tab.editor, showOverlay := false,
          overlay := { text := "", color := "#ffffff", font := "sans",
                       x := 50, y := 50, isDragging := false } }).refImage
      = some "data" := by
  constructor
  · exact (upload_size_limit (5 * 1024 * 1024) "data"
      { refImage := none, generatedImage := none, isGenerating := false,
        error := none, activeTab := Tab.editor, showOverlay := false,
        overlay := { text := "", color := "#ffffff", font := "sans",
                     x := 50, y := 50, isDragging := false } } |>.1
      (by norm_num)).2.1
  · exact upload_size_limit (4 * 1024 * 1024) "data"
      { refImage := none, generatedImage := none, isGenerating := false,
        error := none, activeTab := Tab.editor, showOverlay := false,
        overlay := { text := "", color := "#ffffff", font := "sans",
                     x := 50, y := 50, isDragging := false } } |>.2
      (by norm_num)

/-- C9: when the generation call fails — the collaborator throws, or
returns a response with no image part — a single error message is set
and the prior generated image and overlay state are untouched. -/
theorem generation_failure_preserves_state (promptText : String)
    (result : Except String (List GenPart)) (s : AppState)
    (hvalid : ¬(strTrim promptText = "" ∧ s.refImage = none))
    (hfail : (∃ msg, result = Except.error msg) ∨
             (∃ parts, result = Except.ok parts ∧ findImage parts = none)) :
    (∃ msg, (generateCover promptText result s).error = some msg) ∧
    (generateCover promptText result s).generatedImage
      = s.generatedImage ∧
    (generateCover promptText result s).overlay = s.overlay ∧
    (generateCover promptText result s).showOverlay = s.showOverlay := by
  rcases hfail with ⟨msg, hmsg⟩ | ⟨parts, hparts, hnone⟩
  · subst hmsg
    unfold generateCover
    rw [if_neg hvalid]
    exact ⟨⟨_, rfl⟩, rfl, rfl, rfl⟩
  · subst hparts
    unfold generateCover
    rw [if_neg hvalid]
    simp only [hnone]
    refine ⟨⟨_, rfl⟩, ?_, ?_, ?_⟩ <;> trivial

/-- C9 witness: a thrown collaborator error leaves the previously
generated image and overlay untouched and surfaces one message. -/
theorem generation_failure_preserves_state_witness :
    (∃ msg, (generateCover "cat"
        (Except.error "network down")
        { refImage := none, generatedImage := some "prev",
          isGenerating := false, error := none, activeTab := Tab.editor,
          showOverlay := true,
          overlay := { text := "Title", color := "#ffffff", font := "sans",
                       x := 10, y := 20, isDragging := false } }).error
      = some msg) ∧
    (generateCover "cat" (Except.error "network down")
        { refImage := none, generatedImage := some "prev",
          isGenerating := false, error := none, activeTab := Tab.editor,
          showOverlay := true,
          overlay := { text := "Title", color := "#ffffff", font := "sans",
                       x := 10, y := 20, isDragging := false } }).generatedImage
      = some "prev" := by
  have h := generation_failure_preserves_state "cat"
    (Except.error "network down")
    { refImage := none, generatedImage := some "prev",
      isGenerating := false, error := none, activeTab := Tab.editor,
      showOverlay := true,
      overlay := { text := "Title", color := "#ffffff", font := "sans",
                   x := 10, y := 20, isDragging := false } }
    (by decide) (Or.inl ⟨"network down", rfl⟩)
  exact ⟨h.1, h.2.1⟩
